import Mathlib

/-!
# Verification of the wallet-ledger core of the django_bartr repository

Shallow embedding of the wallet / points-transfer core:

* `Wallet.deduct`, `Wallet.credit` — `freelancing/custom_auth/models.py`,
  class `Wallet` (lines 309-351);
* `getOrCreateWallet` — the wallet created by
  `Wallet.objects.get_or_create(user=user)` (`custom_auth/api.py` line
  761), the one wallet-creation path that runs (the `post_save` signal's
  `Wallet.objects.create` call, `signals.py` lines 11-20, raises
  `TypeError`: see `create_user_wallet_kwargs_rejected`);
* `MerchantPointsTransfer.complete_transfer` — `models.py` lines 715-741;
* the Razorpay payment-verification flow — `api.py` lines 831-897 together
  with `RazorpayTransaction.mark_successful` / `mark_failed`
  (`models.py` lines 406-426);
* the voucher-purchase flow — `freelancing/voucher/api.py` lines 703-857;
* the merchant-deal accept flow — `custom_auth/api.py` lines 1051-1094 and
  `MerchantDeal.save` (`models.py` lines 518-521).

Monetary amounts are Python `Decimal` values in the source; decimal
arithmetic there is exact, so amounts are embedded as `ℚ`.
Database writes (`obj.save()`, `Model.objects.create`) are embedded as
functional state updates; a Python exception that aborts an operation is an
`Except.error` carrying the exception message.
-/

/-- One row of the `WalletHistory` table (`models.py` lines 352-363):
signed `amount`, `transaction_type` of `"credit"` or `"debit"`, free-text
note and optional external reference id. -/
structure WalletHistory where
  amount : ℚ
  transaction_type : String
  reference_note : Option String
  reference_id : Option String
  deriving Repr, DecidableEq

/-- A `Wallet` row (`models.py` lines 309-311) together with its
`WalletHistory` rows, in creation order (newest last). -/
structure Wallet where
  balance : ℚ
  histories : List WalletHistory
  deriving Repr, DecidableEq

/-- `Wallet.deduct` (`models.py` lines 319-331): raise
`ValidationError("Insufficient points in wallet.")` when
`balance < amount`; otherwise decrease the balance and append one
`debit` history row whose signed amount is `-amount`. -/
def Wallet.deduct (w : Wallet) (amount : ℚ) (note refId : Option String) :
    Except String Wallet :=
  if w.balance < amount then
    .error "Insufficient points in wallet."
  else
    .ok { balance := w.balance - amount,
          histories := w.histories ++
            [{ amount := -amount, transaction_type := "debit",
               reference_note := note, reference_id := refId }] }

/-- `Wallet.credit` (`models.py` lines 333-343): unconditionally increase
the balance and append one `credit` history row of signed amount
`+amount`. -/
def Wallet.credit (w : Wallet) (amount : ℚ) (note refId : Option String) :
    Wallet :=
  { balance := w.balance + amount,
    histories := w.histories ++
      [{ amount := amount, transaction_type := "credit",
         reference_note := note, reference_id := refId }] }

/-- `Wallet.add_points` (`models.py` lines 345-347) is an alias of
`credit`. -/
def Wallet.add_points (w : Wallet) (points : ℚ) (note refId : Option String) :
    Wallet :=
  w.credit points note refId

/-- `Wallet.deduct_points` (`models.py` lines 349-351) is an alias of
`deduct`. -/
def Wallet.deduct_points (w : Wallet) (points : ℚ)
    (note refId : Option String) : Except String Wallet :=
  w.deduct points note refId

/-- The wallet the program actually creates for a user: the create
branch of `Wallet.objects.get_or_create(user=user)` (`api.py` line 761)
passes no field values, so the row starts at the model default
`balance = 0.00` (`models.py` line 311) with no history rows.  (The
`post_save` signal's creation attempt, `signals.py` lines 16-20, raises
`TypeError` for its stale `content_type`/`object_id` kwargs — proven in
`create_user_wallet_kwargs_rejected` — and provisions nothing.) -/
def getOrCreateWallet : Wallet :=
  { balance := 0, histories := [] }

/-- Sum of the signed amounts of a wallet's history rows. -/
def walletHistSum (w : Wallet) : ℚ :=
  (w.histories.map (fun h => h.amount)).sum

/-- The wallet states reachable from wallet creation through the two
mutators `credit` and `deduct` (the only code paths that touch a
balance). -/
inductive WalletReachable : Wallet → Prop
  | init : WalletReachable getOrCreateWallet
  | credit (w : Wallet) (a : ℚ) (n r : Option String) :
      WalletReachable w → WalletReachable (w.credit a n r)
  | deduct (w w' : Wallet) (a : ℚ) (n r : Option String) :
      WalletReachable w → w.deduct a n r = .ok w' → WalletReachable w'

/-! ## Merchant points transfer (`models.py` lines 683-741) -/

/-- A `MerchantPointsTransfer` row: points amount, fee, net amount
(`points_amount - transfer_fee` as created by the `complete` action,
`api.py` lines 1149-1157), status, transaction id and notes. -/
structure MerchantPointsTransfer where
  points_amount : ℚ
  transfer_fee : ℚ
  net_amount : ℚ
  status : String
  transaction_id : Option String
  notes : Option String
  deriving Repr, DecidableEq

/-- The two wallet rows touched by `complete_transfer`:
`from_merchant.user.wallet` and `to_merchant.user.wallet`.  The
destination is an `Option` because the attribute access
`to_merchant.user.wallet` raises (`RelatedObjectDoesNotExist`) when that
user has no wallet row, which is how the credit leg of a transfer can
fail in the source. -/
structure TransferWallets where
  fromWallet : Wallet
  toWallet : Option Wallet
  deriving Repr, DecidableEq

/-- `MerchantPointsTransfer.complete_transfer` (`models.py` lines
715-741).  Each `save()` in the source commits immediately (there is no
enclosing `transaction.atomic` block and the `except` clause swallows
the exception), so a debit that succeeded before the credit leg raised
stays persisted: the embedding returns the mutated-so-far wallets in
every branch.  Returns the updated transfer row, the wallets, and the
method's boolean result. -/
def MerchantPointsTransfer.complete_transfer (t : MerchantPointsTransfer)
    (ws : TransferWallets) :
    MerchantPointsTransfer × TransferWallets × Bool :=
  match ws.fromWallet.deduct_points t.points_amount
      (some "Transfer to to_merchant") t.transaction_id with
  | .error e =>
      ({ t with status := "failed", notes := some ("Transfer failed: " ++ e) },
       ws, false)
  | .ok fw =>
      match ws.toWallet with
      | none =>
          -- `self.to_merchant.user.wallet` raised after the debit was saved
          ({ t with
              status := "failed",
              notes := some "Transfer failed: to_merchant user has no wallet" },
           { ws with fromWallet := fw }, false)
      | some tw =>
          let tw := tw.add_points t.net_amount
            (some "Received from from_merchant") t.transaction_id
          ({ t with status := "completed" },
           { fromWallet := fw, toWallet := some tw }, true)

/-! ## Razorpay payment verification (`api.py` lines 831-897,
`models.py` lines 368-426) -/

/-- A `RazorpayTransaction` row (`models.py` lines 368-398): the fields
the verification flow reads or writes. -/
structure RazorpayTransaction where
  razorpay_order_id : String
  razorpay_payment_id : Option String
  razorpay_signature : Option String
  amount : ℚ
  points_to_add : ℚ
  status : String
  error_code : Option String
  deriving Repr, DecidableEq

/-- The transaction record created by the Razorpay order-creation API
(`api.py` lines 782-792): status defaults to `pending` and
`points_to_add = amount * 10` (1 rupee = 10 points). -/
def createRazorpayTransaction (orderId : String) (amount : ℚ) :
    RazorpayTransaction :=
  { razorpay_order_id := orderId, razorpay_payment_id := none,
    razorpay_signature := none, amount := amount,
    points_to_add := amount * 10, status := "pending", error_code := none }

/-- `RazorpayTransaction.mark_failed` (`models.py` lines 421-426). -/
def RazorpayTransaction.mark_failed (t : RazorpayTransaction)
    (errorCode : String) : RazorpayTransaction :=
  { t with status := "failed", error_code := some errorCode }

/-- `RazorpayTransaction.mark_successful` (`models.py` lines 406-419):
set status `success`, then credit the transaction's wallet with
`amount * 10` points (recomputed, not read from `points_to_add`), using
the Razorpay order id as the history reference. -/
def RazorpayTransaction.mark_successful (t : RazorpayTransaction)
    (paymentId signature : String) (wallet : Wallet) :
    RazorpayTransaction × Wallet :=
  ({ t with
      status := "success",
      razorpay_payment_id := some paymentId,
      razorpay_signature := some signature },
   wallet.add_points (t.amount * 10)
     (some ("Razorpay payment - " ++ t.razorpay_order_id))
     (some t.razorpay_order_id))

/-- State seen by one payment-verification call: the transaction row
matched by order id and user, and that transaction's wallet. -/
structure PaymentState where
  txn : RazorpayTransaction
  wallet : Wallet
  deriving Repr, DecidableEq

/-- Outcome of `RazorpayPaymentVerificationAPIView.post`. -/
inductive VerifyOutcome where
  | success
  | invalidSignature
  | notCaptured
  | notFound
  deriving Repr, DecidableEq

/-- `RazorpayPaymentVerificationAPIView.post` (`api.py` lines 831-897).
The lookup `RazorpayTransaction.objects.get(..., status='pending')`
raises `DoesNotExist` — answered as HTTP 404 "Transaction not found or
already processed" — whenever the row is no longer `pending`.
`sigProvided`/`sigValid` embed whether a signature was supplied and
whether the recomputed HMAC matches; `captured` embeds the gateway's
answer to `payment.fetch`. -/
def razorpayVerifyPayment (st : PaymentState) (paymentId signature : String)
    (sigProvided sigValid captured : Bool) :
    VerifyOutcome × PaymentState :=
  if st.txn.status ≠ "pending" then
    (.notFound, st)
  else if sigProvided && !sigValid then
    (.invalidSignature, { st with txn := st.txn.mark_failed "INVALID_SIGNATURE" })
  else if !captured then
    (.notCaptured, { st with txn := st.txn.mark_failed "PAYMENT_NOT_CAPTURED" })
  else
    let r := st.txn.mark_successful paymentId
      (if sigProvided then signature else "") st.wallet
    (.success, { txn := r.1, wallet := r.2 })

/-! ## Merchant deals (`models.py` lines 487-606, `serializers.py`
lines 549-567, `api.py` lines 1051-1094) -/

/-- A `MerchantDeal` row: the fields the deal workflow reads or
writes. -/
structure MerchantDeal where
  points_offered : ℚ
  points_used : ℚ
  points_remaining : ℚ
  status : String
  deriving Repr, DecidableEq

/-- `MerchantDeal.save` (`models.py` lines 518-521): every save
recomputes `points_remaining = points_offered - points_used`. -/
def MerchantDeal.save (d : MerchantDeal) : MerchantDeal :=
  { d with points_remaining := d.points_offered - d.points_used }

/-- A new deal as created through `MerchantDealCreateSerializer`:
`points_used` defaults to 0 and the mandatory `save` derives
`points_remaining`. -/
def createDeal (offered : ℚ) : MerchantDeal :=
  (MerchantDeal.mk offered 0 0 "active").save

/-- A `MerchantDealRequest` row (`models.py` lines 536-560). -/
structure MerchantDealRequest where
  points_requested : ℚ
  status : String
  deriving Repr, DecidableEq

/-- `MerchantDealRequestSerializer.validate` + creation
(`serializers.py` lines 549-567): rejects a request against one's own
deal, a duplicate request, and `points_requested > deal.points_remaining`;
otherwise the request row is created in status `pending`. -/
def requestDeal (deal : MerchantDeal) (isOwnDeal alreadyRequested : Bool)
    (points : ℚ) : Except String MerchantDealRequest :=
  if isOwnDeal then
    .error "You cannot request your own deal"
  else if alreadyRequested then
    .error "You have already requested this deal"
  else if deal.points_remaining < points then
    .error "Requested points exceed available points"
  else
    .ok { points_requested := points, status := "pending" }

/-- A `MerchantDealConfirmation` row (`models.py` lines 563-606): the
fields the accept/complete workflow reads or writes. -/
structure MerchantDealConfirmation where
  status : String
  points_exchanged : ℚ
  deriving Repr, DecidableEq

/-- The database state one `accept` call operates on: the request's
deal, the request itself, the confirmation rows, and the wallet table
(which `accept` never touches). -/
structure DealState where
  deal : MerchantDeal
  request : MerchantDealRequest
  confirmations : List MerchantDealConfirmation
  wallets : List Wallet
  deriving Repr, DecidableEq

/-- `MerchantDealRequestViewSet.accept` (`api.py` lines 1051-1094):
reject the call unless the caller owns the deal and the request is
`pending`; otherwise create a confirmation in status `confirmed` for the
requested points, add `points_requested` to the deal's `points_used`
(and `save`, re-deriving `points_remaining`), and flip the request to
`accepted`.  No balance check of any kind is performed here; wallets
are untouched. -/
def acceptDealRequest (st : DealState) (callerOwnsDeal : Bool) :
    Except String DealState :=
  if !callerOwnsDeal then
    .error "Only deal creator can accept requests"
  else if st.request.status ≠ "pending" then
    .error "Request is not pending"
  else
    .ok { deal := ({ st.deal with
            points_used := st.deal.points_used + st.request.points_requested }).save,
          request := { st.request with status := "accepted" },
          confirmations := st.confirmations ++
            [{ status := "confirmed",
               points_exchanged := st.request.points_requested }],
          wallets := st.wallets }

/-! ## Voucher purchase (`voucher/api.py` lines 703-857) -/

/-- A `Voucher` row: the fields the purchase flow reads or writes
(`voucher/models.py`: `count` is the nullable redemption cap,
`redemption_count` and `purchase_count` the counters). -/
structure Voucher where
  id : Nat
  is_active : Bool
  count : Option Nat
  redemption_count : Nat
  purchase_count : Nat
  title : String
  deriving Repr, DecidableEq

/-- Modelled from the spec: the `UserVoucherRedemption` model class is
absent from the source tree (only a commented-out older version remains
in `voucher/models.py` lines 97-110, while `voucher/api.py` imports and
uses it), so its row layout is taken from spec section 3,
`VoucherPurchaseRecord`: user and voucher references, points cost paid,
active flag, and the wallet-transaction correlation id. -/
structure UserVoucherRedemption where
  user : Nat
  voucher : Nat
  purchase_cost : ℚ
  wallet_transaction_id : String
  is_active : Bool
  deriving Repr, DecidableEq

/-- What the `voucher_cost` site setting can look like to the purchase
flow: the row is missing (`SiteSetting.get_value` returns the default
`"10"`), present but not parseable as a `Decimal` (raises
`InvalidOperation`/`ValueError`/`TypeError`), or parseable with value
`q`. -/
inductive VoucherCostSetting where
  | missing
  | unparseable
  | parsed (q : ℚ)
  deriving Repr, DecidableEq

/-- Steps 5 of `purchase_voucher` (`voucher/api.py` lines 786-797): a
missing setting yields the default `"10"`, a parse failure is caught
and falls back to `Decimal("10")`, but a value that parses to a
non-positive number raises `ValidationError("Invalid voucher cost")`,
which is not in the caught exception tuple and aborts the purchase. -/
def computeVoucherCost (s : VoucherCostSetting) : Except String ℚ :=
  match s with
  | .missing => .ok 10
  | .unparseable => .ok 10
  | .parsed q => if q ≤ 0 then .error "Invalid voucher cost" else .ok q

/-- Step 3 of `purchase_voucher` (`voucher/api.py` line 777): Python's
`if voucher.count and voucher.redemption_count >= voucher.count` — a
`None` or zero cap is falsy, so the stock check is skipped for it. -/
def Voucher.outOfStock (v : Voucher) : Bool :=
  match v.count with
  | some c => c != 0 && decide (c ≤ v.redemption_count)
  | none => false

/-- The database state one `purchase_voucher` call operates on. -/
structure PurchaseState where
  vouchers : List Voucher
  wallet : Option Wallet
  redemptions : List UserVoucherRedemption
  deriving Repr, DecidableEq

/-- Result of one `purchase_voucher` call: the success payload
(cost charged and remaining balance) or the error message of the
`ValidationError` answered as HTTP 400. -/
inductive PurchaseOutcome where
  | ok (cost : ℚ) (newBalance : ℚ)
  | err (msg : String)
  deriving Repr, DecidableEq

/-- The body of `purchase_voucher` (`voucher/api.py` lines 759-841)
WITHOUT the enclosing `transaction.atomic` block: every store write is
threaded through, and an error returns the rows as mutated so far.
`insertFails` embeds the `IntegrityError` fault of step 10 (the
purchase-record insert hitting a unique-constraint collision);
`txnId` the timestamp-derived transaction id of step 7. -/
def purchaseVoucherBody (st : PurchaseState) (user vid : Nat)
    (setting : VoucherCostSetting) (txnId : String) (insertFails : Bool) :
    PurchaseOutcome × PurchaseState :=
  match st.vouchers.find? (fun v => v.id == vid && v.is_active) with
  | none => (.err "Voucher not found or inactive", st)
  | some v =>
    if st.redemptions.any (fun r => r.user == user && r.voucher == v.id) then
      (.err "You have already purchased this voucher", st)
    else if v.outOfStock then
      (.err "Voucher is out of stock", st)
    else
      match st.wallet with
      | none => (.err "User wallet not found", st)
      | some w =>
        match computeVoucherCost setting with
        | .error m => (.err m, st)
        | .ok cost =>
          if w.balance < cost then
            (.err "Insufficient balance", st)
          else
            match w.deduct cost (some ("Voucher Purchase: " ++ v.title))
                (some (toString v.id)) with
            | .error m => (.err ("Wallet deduction failed: " ++ m), st)
            | .ok w2 =>
              let st1 : PurchaseState :=
                { st with
                    wallet := some w2,
                    vouchers := st.vouchers.map (fun u =>
                      if u.id == v.id then
                        { u with purchase_count := u.purchase_count + 1 }
                      else u) }
              if insertFails then
                (.err "Failed to create purchase record", st1)
              else
                (.ok cost w2.balance,
                 { st1 with
                     redemptions := st1.redemptions ++
                       [{ user := user, voucher := v.id,
                          purchase_cost := cost,
                          wallet_transaction_id := txnId,
                          is_active := true }] })

/-- `purchase_voucher` (`voucher/api.py` lines 703-857): the body runs
inside `with transaction.atomic()`, and every failure raises out of the
block, so on any error all writes are rolled back and the database is
exactly as before the call. -/
def purchase_voucher (st : PurchaseState) (user vid : Nat)
    (setting : VoucherCostSetting) (txnId : String) (insertFails : Bool) :
    PurchaseOutcome × PurchaseState :=
  match purchaseVoucherBody st user vid setting txnId insertFails with
  | (.ok c b, st1) => (.ok c b, st1)
  | (.err m, _) => (.err m, st)

/-! ## Django model field check for the wallet signal (C7) -/

/-- Field names accepted by the current `Wallet` model: its own fields
(`models.py` lines 309-311) plus the `BaseModel` fields it inherits
(`models.py` lines 48-54). -/
def walletModelFields : List String :=
  ["user", "balance", "is_active", "is_delete", "create_time", "update_time"]

/-- Keyword arguments that `create_user_wallet` passes to
`Wallet.objects.create` (`signals.py` lines 16-20). -/
def create_user_wallet_kwargs : List String :=
  ["balance", "content_type", "object_id"]

/-- Django `Model.__init__` raises
`TypeError("... got unexpected keyword arguments ...")` whenever a
keyword argument names no field of the model; `objects.create` therefore
only succeeds when every kwarg is a model field. -/
def djangoCreateAccepts (modelFields kwargs : List String) : Bool :=
  kwargs.all (fun k => modelFields.contains k)

/-! ## Helper lemmas -/

/-- Appending one history row adds its amount to the history sum. -/
theorem walletHistSum_append (w : Wallet) (h : WalletHistory) :
    walletHistSum { w with histories := w.histories ++ [h] } =
      walletHistSum w + h.amount := by
  simp [walletHistSum]

/-- Shape of a successful `deduct`. -/
theorem Wallet.deduct_ok_iff (w w2 : Wallet) (a : ℚ) (n r : Option String) :
    w.deduct a n r = .ok w2 ↔
      a ≤ w.balance ∧
      w2 = { balance := w.balance - a,
             histories := w.histories ++
               [{ amount := -a, transaction_type := "debit",
                  reference_note := n, reference_id := r }] } := by
  unfold Wallet.deduct
  split
  next hlt =>
    constructor
    · intro h; cases h
    · rintro ⟨hle, -⟩; exact absurd hlt (not_lt.mpr hle)
  next hge =>
    constructor
    · intro h; exact ⟨not_lt.mp hge, (Except.ok.injEq _ _).mp h |>.symm⟩
    · rintro ⟨-, rfl⟩; rfl

/-! ## Claim theorems -/

/-- Claim C5 (confirmed): for every wallet and every positive amount,
`deduct` fails with the insufficient-balance error and changes nothing
when `balance < amount`; otherwise it decreases the balance by `amount`
and appends exactly one `debit` history row carrying the note and
reference id. -/
theorem deduct_no_negative_balance (w : Wallet) (a : ℚ) (n r : Option String)
    (_ha : 0 < a) :
    (w.balance < a →
      w.deduct a n r = .error "Insufficient points in wallet.") ∧
    (a ≤ w.balance →
      w.deduct a n r = .ok
        { balance := w.balance - a,
          histories := w.histories ++
            [{ amount := -a, transaction_type := "debit",
               reference_note := n, reference_id := r }] }) := by
  constructor
  · intro h; unfold Wallet.deduct; rw [if_pos h]
  · intro h; exact (Wallet.deduct_ok_iff w _ a n r).mpr ⟨h, rfl⟩

/-- Witness for C5: with balance 5, deducting 10 fails with the
insufficient-balance error. -/
theorem deduct_no_negative_balance_witness :
    (Wallet.mk 5 []).deduct 10 none none =
      .error "Insufficient points in wallet." :=
  (deduct_no_negative_balance (Wallet.mk 5 []) 10 none none
    (by norm_num)).1 (by norm_num)

/-- Claim C10 (confirmed): neither wallet mutator validates positivity.
For a non-negative balance and any negative amount, `deduct` succeeds —
the `balance < amount` guard is false — and increases the balance while
recording a `debit` row with positive signed amount `-a`; and some
negative credit amount whose magnitude exceeds the balance drives the
balance below zero. -/
theorem wallet_ops_no_positivity_validation (w : Wallet)
    (hw : 0 ≤ w.balance) (a : ℚ) (ha : a < 0) (n r : Option String) :
    (w.deduct a n r = .ok
        { balance := w.balance - a,
          histories := w.histories ++
            [{ amount := -a, transaction_type := "debit",
               reference_note := n, reference_id := r }] } ∧
      w.balance < w.balance - a ∧ 0 < -a) ∧
    (∃ b : ℚ, b < 0 ∧ w.balance < -b ∧ (w.credit b n r).balance < 0) := by
  refine ⟨⟨?_, by linarith, by linarith⟩,
    ⟨-(w.balance + 1), by linarith, by linarith, ?_⟩⟩
  · exact (Wallet.deduct_ok_iff w _ a n r).mpr ⟨by linarith, rfl⟩
  · simp only [Wallet.credit]; linarith

/-- Witness for C10: a wallet of balance 0 "deducts" -5 into balance 5
with a debit row of +5, and crediting -1 drives it to -1. -/
theorem wallet_ops_no_positivity_validation_witness :
    (Wallet.mk 0 []).deduct (-5) none none =
      .ok (Wallet.mk 5 [WalletHistory.mk 5 "debit" none none]) := by
  have h := (wallet_ops_no_positivity_validation (Wallet.mk 0 [])
    (by norm_num) (-5) (by norm_num) none none).1.1
  norm_num at h
  exact h

/-- Claim C1 (confirmed): every successful credit appends exactly one
history row of amount `+a` and adds `a` to the balance; every
successful debit appends exactly one row of amount `-a` and subtracts
`a`; so `balance = sum(histories)` is preserved by both mutators, and
since the program creates a wallet at the model default balance 0.00
with no history rows (`get_or_create`, `api.py` line 761), the
conservation invariant holds in every reachable state, including the
creation state. -/
theorem wallet_ledger_conservation :
    (∀ (w : Wallet) (a : ℚ) (n r : Option String),
      (w.credit a n r).histories = w.histories ++
          [{ amount := a, transaction_type := "credit",
             reference_note := n, reference_id := r }] ∧
      (w.credit a n r).balance = w.balance + a) ∧
    (∀ (w w2 : Wallet) (a : ℚ) (n r : Option String),
      w.deduct a n r = .ok w2 →
      w2.histories = w.histories ++
          [{ amount := -a, transaction_type := "debit",
             reference_note := n, reference_id := r }] ∧
      w2.balance = w.balance - a) ∧
    (∀ w : Wallet, WalletReachable w →
      w.balance = walletHistSum w) := by
  refine ⟨fun w a n r => ⟨rfl, rfl⟩, ?_, ?_⟩
  · intro w w2 a n r h
    obtain ⟨-, rfl⟩ := (Wallet.deduct_ok_iff w w2 a n r).mp h
    exact ⟨rfl, rfl⟩
  · intro w hw
    induction hw with
    | init => simp [getOrCreateWallet, walletHistSum]
    | credit w a n r _ ih =>
        have : walletHistSum (w.credit a n r) = walletHistSum w + a :=
          walletHistSum_append w _
        simp only [Wallet.credit] at this ⊢
        rw [this]; linarith
    | deduct w w2 a n r _ h ih =>
        obtain ⟨-, rfl⟩ := (Wallet.deduct_ok_iff w w2 a n r).mp h
        simp [walletHistSum] at ih ⊢
        linarith

/-- Witness for C1: the freshly created wallet satisfies the
conservation invariant (balance 0, empty history). -/
theorem wallet_ledger_conservation_witness :
    getOrCreateWallet.balance = walletHistSum getOrCreateWallet :=
  wallet_ledger_conservation.2.2 getOrCreateWallet
    WalletReachable.init

/-- Counterexample to C2 as stated: with a solvent source wallet
(balance 1000) and a destination whose credit leg fails (no wallet row),
`complete_transfer` marks the transfer `failed` — but the source debit
persists: the source balance after the call is 960, not its pre-call
value 1000. -/
theorem complete_transfer_debit_persists_on_failed_credit :
    ((MerchantPointsTransfer.mk 40 0 40 "pending" (some "TRF_TEST1")
        none).complete_transfer ⟨⟨1000, []⟩, none⟩).1.status = "failed" ∧
    ((MerchantPointsTransfer.mk 40 0 40 "pending" (some "TRF_TEST1")
        none).complete_transfer ⟨⟨1000, []⟩, none⟩).2.1.fromWallet.balance
      = 960 ∧
    ((MerchantPointsTransfer.mk 40 0 40 "pending" (some "TRF_TEST1")
        none).complete_transfer ⟨⟨1000, []⟩, none⟩).2.1.fromWallet.balance
      ≠ 1000 := by
  refine ⟨?_, ?_, ?_⟩ <;>
    simp [MerchantPointsTransfer.complete_transfer, Wallet.deduct_points,
      Wallet.deduct] <;> norm_num

/-- Claim C2 (amended): when `complete_transfer` succeeds, the transfer
is `completed`, the source balance decreases by the full
`points_amount`, the destination balance increases by
`net_amount = points_amount - transfer_fee`, and both history rows carry
the transfer's transaction id.  When the source debit itself fails, the
transfer is `failed` and both wallets are untouched.  But when the
destination credit leg fails after the source debit succeeded, the
transfer is `failed` while the source debit persists: the source balance
stays decreased by `points_amount` (there is no enclosing transaction to
roll it back). -/
theorem complete_transfer_spec (t : MerchantPointsTransfer)
    (ws : TransferWallets)
    (hnet : t.net_amount = t.points_amount - t.transfer_fee) :
    (∀ tw, ws.toWallet = some tw → t.points_amount ≤ ws.fromWallet.balance →
      (t.complete_transfer ws).1.status = "completed" ∧
      (t.complete_transfer ws).2.2 = true ∧
      (t.complete_transfer ws).2.1.fromWallet.balance
          = ws.fromWallet.balance - t.points_amount ∧
      (t.complete_transfer ws).2.1.fromWallet.histories
          = ws.fromWallet.histories ++
            [{ amount := -t.points_amount, transaction_type := "debit",
               reference_note := some "Transfer to to_merchant",
               reference_id := t.transaction_id }] ∧
      (t.complete_transfer ws).2.1.toWallet
          = some { balance := tw.balance + (t.points_amount - t.transfer_fee),
                   histories := tw.histories ++
                     [{ amount := t.points_amount - t.transfer_fee,
                        transaction_type := "credit",
                        reference_note := some "Received from from_merchant",
                        reference_id := t.transaction_id }] }) ∧
    (ws.fromWallet.balance < t.points_amount →
      (t.complete_transfer ws).1.status = "failed" ∧
      (t.complete_transfer ws).2.1 = ws ∧
      (t.complete_transfer ws).2.2 = false) ∧
    (ws.toWallet = none → t.points_amount ≤ ws.fromWallet.balance →
      (t.complete_transfer ws).1.status = "failed" ∧
      (t.complete_transfer ws).2.2 = false ∧
      (t.complete_transfer ws).2.1.fromWallet.balance
          = ws.fromWallet.balance - t.points_amount) := by
  refine ⟨?_, ?_, ?_⟩
  · intro tw htw hle
    simp only [MerchantPointsTransfer.complete_transfer, Wallet.deduct_points,
      Wallet.deduct, not_lt.mpr hle, if_neg (not_lt.mpr hle), htw,
      Wallet.add_points, Wallet.credit, hnet]
    exact ⟨rfl, rfl, rfl, rfl, rfl⟩
  · intro hlt
    simp only [MerchantPointsTransfer.complete_transfer, Wallet.deduct_points,
      Wallet.deduct, if_pos hlt]
    refine ⟨?_, ?_, ?_⟩ <;> trivial
  · intro htw hle
    simp only [MerchantPointsTransfer.complete_transfer, Wallet.deduct_points,
      Wallet.deduct, if_neg (not_lt.mpr hle), htw]
    refine ⟨?_, ?_, ?_⟩ <;> trivial

/-- Witness for C2 (amended): the spec's own example — source at
1000, destination at 500, 40 points, zero fee — completes with balances
960 and 540. -/
theorem complete_transfer_spec_witness :
    ((MerchantPointsTransfer.mk 40 0 40 "pending" (some "TRF1")
        none).complete_transfer ⟨⟨1000, []⟩, some ⟨500, []⟩⟩).1.status
      = "completed" ∧
    ((MerchantPointsTransfer.mk 40 0 40 "pending" (some "TRF1")
        none).complete_transfer ⟨⟨1000, []⟩, some ⟨500, []⟩⟩).2.1.fromWallet.balance
      = 960 := by
  have h := (complete_transfer_spec
    (MerchantPointsTransfer.mk 40 0 40 "pending" (some "TRF1") none)
    ⟨⟨1000, []⟩, some ⟨500, []⟩⟩ (by norm_num)).1 ⟨500, []⟩ rfl (by norm_num)
  refine ⟨h.1, ?_⟩
  rw [h.2.2.1]
  norm_num

/-- Claim C4 (confirmed): for a `pending` transaction whose
`points_to_add` is the `amount * 10` set at order creation, the first
verification call (valid signature, payment captured) succeeds,
transitions the transaction to `success`, and credits the wallet exactly
once with `points_to_add`, referencing the Razorpay order id; any second
call then finds no `pending` row — it answers `notFound` ("Transaction
not found or already processed") and performs no credit. -/
theorem razorpay_confirm_idempotent (st : PaymentState)
    (paymentId signature : String) (sigProvided : Bool)
    (hpending : st.txn.status = "pending")
    (hpoints : st.txn.points_to_add = st.txn.amount * 10) :
    (razorpayVerifyPayment st paymentId signature sigProvided true true).1
      = .success ∧
    (razorpayVerifyPayment st paymentId signature sigProvided
        true true).2.txn.status = "success" ∧
    (razorpayVerifyPayment st paymentId signature sigProvided
        true true).2.wallet.balance
      = st.wallet.balance + st.txn.points_to_add ∧
    (razorpayVerifyPayment st paymentId signature sigProvided
        true true).2.wallet.histories
      = st.wallet.histories ++
        [{ amount := st.txn.points_to_add, transaction_type := "credit",
           reference_note :=
             some ("Razorpay payment - " ++ st.txn.razorpay_order_id),
           reference_id := some st.txn.razorpay_order_id }] ∧
    (∀ (pid2 sig2 : String) (sp2 sv2 c2 : Bool),
      razorpayVerifyPayment
          (razorpayVerifyPayment st paymentId signature sigProvided
            true true).2 pid2 sig2 sp2 sv2 c2
        = (.notFound,
           (razorpayVerifyPayment st paymentId signature sigProvided
             true true).2)) := by
  have hrun : razorpayVerifyPayment st paymentId signature sigProvided
      true true =
      (.success,
       { txn := { st.txn with
           status := "success",
           razorpay_payment_id := some paymentId,
           razorpay_signature :=
             some (if sigProvided then signature else "") },
         wallet := st.wallet.add_points (st.txn.amount * 10)
           (some ("Razorpay payment - " ++ st.txn.razorpay_order_id))
           (some st.txn.razorpay_order_id) }) := by
    simp [razorpayVerifyPayment, hpending, RazorpayTransaction.mark_successful]
  refine ⟨by rw [hrun], by rw [hrun], ?_, ?_, ?_⟩
  · rw [hrun]; simp [Wallet.add_points, Wallet.credit, hpoints]
  · rw [hrun]; simp [Wallet.add_points, Wallet.credit, hpoints]
  · intro pid2 sig2 sp2 sv2 c2
    rw [hrun]
    simp [razorpayVerifyPayment]

/-- Witness for C4: a pending transaction for 50 rupees on a wallet of
1000 points verifies to `success` with balance 1500. -/
theorem razorpay_confirm_idempotent_witness :
    (razorpayVerifyPayment
        ⟨createRazorpayTransaction "order_ABC" 50, ⟨1000, []⟩⟩
        "pay_1" "sig" true true true).1 = .success ∧
    (razorpayVerifyPayment
        ⟨createRazorpayTransaction "order_ABC" 50, ⟨1000, []⟩⟩
        "pay_1" "sig" true true true).2.wallet.balance = 1500 := by
  have h := razorpay_confirm_idempotent
    ⟨createRazorpayTransaction "order_ABC" 50, ⟨1000, []⟩⟩
    "pay_1" "sig" true rfl rfl
  refine ⟨h.1, ?_⟩
  rw [h.2.2.1]
  norm_num [createRazorpayTransaction]

/-- Counterexample to C6 as stated: two 80-point requests are validly
created against a 100-point deal (each checked against
`points_remaining = 100` at request-creation time), and `accept`
succeeds on both — it never re-checks `points_remaining` — leaving
`points_used = 160 > 100 = points_offered` and
`points_remaining = -60`. -/
theorem accept_exceeds_points_offered :
    requestDeal (createDeal 100) false false 80 =
      .ok { points_requested := 80, status := "pending" } ∧
    acceptDealRequest
        { deal := createDeal 100,
          request := { points_requested := 80, status := "pending" },
          confirmations := [], wallets := [] } true =
      .ok { deal := { points_offered := 100, points_used := 80,
                      points_remaining := 20, status := "active" },
            request := { points_requested := 80, status := "accepted" },
            confirmations := [{ status := "confirmed",
                                points_exchanged := 80 }],
            wallets := [] } ∧
    acceptDealRequest
        { deal := { points_offered := 100, points_used := 80,
                    points_remaining := 20, status := "active" },
          request := { points_requested := 80, status := "pending" },
          confirmations := [{ status := "confirmed",
                              points_exchanged := 80 }],
          wallets := [] } true =
      .ok { deal := { points_offered := 100, points_used := 160,
                      points_remaining := -60, status := "active" },
            request := { points_requested := 80, status := "accepted" },
            confirmations := [{ status := "confirmed",
                                points_exchanged := 80 },
                              { status := "confirmed",
                                points_exchanged := 80 }],
            wallets := [] } ∧
    (100 : ℚ) < 160 := by
  refine ⟨?_, ?_, ?_, by norm_num⟩ <;>
    simp [requestDeal, createDeal, acceptDealRequest, MerchantDeal.save] <;>
    norm_num

/-- Claim C6 (amended): `points_remaining = points_offered -
points_used` is restored by every `save`, hence holds after deal
creation and after every accept; but `points_used` is NOT bounded by
`points_offered`: `accept` succeeds on any pending request of a deal
the caller owns, with no check of the request against
`points_remaining` — that check happens only at request-creation
time — so accepted requests can drive `points_used` past
`points_offered`. -/
theorem deal_points_bookkeeping (st : DealState)
    (hpending : st.request.status = "pending") :
    (∀ d : MerchantDeal,
      d.save.points_remaining = d.points_offered - d.points_used) ∧
    (∀ q : ℚ, (createDeal q).points_remaining =
      (createDeal q).points_offered - (createDeal q).points_used) ∧
    (acceptDealRequest st true = .ok
      { deal := ({ st.deal with
          points_used :=
            st.deal.points_used + st.request.points_requested }).save,
        request := { st.request with status := "accepted" },
        confirmations := st.confirmations ++
          [{ status := "confirmed",
             points_exchanged := st.request.points_requested }],
        wallets := st.wallets } ∧
     ∀ st2, acceptDealRequest st true = .ok st2 →
       st2.deal.points_remaining =
         st2.deal.points_offered - st2.deal.points_used ∧
       st2.deal.points_used =
         st.deal.points_used + st.request.points_requested) := by
  refine ⟨fun d => rfl, fun q => rfl, ?_, ?_⟩
  · simp [acceptDealRequest, hpending]
  · intro st2 h
    simp [acceptDealRequest, hpending] at h
    subst h
    exact ⟨rfl, rfl⟩

/-- Witness for C6 (amended): accepting a pending 80-point request on a
fresh 100-point deal leaves `points_used = 80`,
`points_remaining = 20`. -/
theorem deal_points_bookkeeping_witness :
    acceptDealRequest
        { deal := createDeal 100,
          request := { points_requested := 80, status := "pending" },
          confirmations := [], wallets := [] } true =
      .ok { deal := { points_offered := 100, points_used := 80,
                      points_remaining := 20, status := "active" },
            request := { points_requested := 80, status := "accepted" },
            confirmations := [{ status := "confirmed",
                                points_exchanged := 80 }],
            wallets := [] } := by
  have h := (deal_points_bookkeeping
    { deal := createDeal 100,
      request := { points_requested := 80, status := "pending" },
      confirmations := [], wallets := [] } rfl).2.2.1
  rw [h]
  simp [createDeal, MerchantDeal.save]
  norm_num

/-- Claim C9 (confirmed): a successful `accept` creates exactly one
confirmation in status `confirmed` for the requested points, adds the
requested points to the deal's `points_used`, flips the request to
`accepted` — and leaves the wallet table entirely unchanged: acceptance
reserves deal points but moves no wallet points. -/
theorem accept_preserves_wallets (st : DealState)
    (hpending : st.request.status = "pending") :
    ∃ st2, acceptDealRequest st true = .ok st2 ∧
      st2.wallets = st.wallets ∧
      st2.confirmations = st.confirmations ++
        [{ status := "confirmed",
           points_exchanged := st.request.points_requested }] ∧
      st2.deal.points_used =
        st.deal.points_used + st.request.points_requested ∧
      st2.request.status = "accepted" := by
  refine ⟨{ deal := ({ st.deal with
              points_used :=
                st.deal.points_used + st.request.points_requested }).save,
            request := { st.request with status := "accepted" },
            confirmations := st.confirmations ++
              [{ status := "confirmed",
                 points_exchanged := st.request.points_requested }],
            wallets := st.wallets }, ?_, rfl, rfl, ?_, rfl⟩
  · simp [acceptDealRequest, hpending]
  · simp [MerchantDeal.save]

/-- Witness for C9: accepting a pending 40-point request with two
wallets in the table leaves both wallets exactly as they were. -/
theorem accept_preserves_wallets_witness :
    ∃ st2, acceptDealRequest
        { deal := createDeal 100,
          request := { points_requested := 40, status := "pending" },
          confirmations := [],
          wallets := [⟨1000, []⟩, ⟨500, []⟩] } true = .ok st2 ∧
      st2.wallets = [⟨1000, []⟩, ⟨500, []⟩] := by
  obtain ⟨st2, h1, h2, -⟩ := accept_preserves_wallets
    { deal := createDeal 100,
      request := { points_requested := 40, status := "pending" },
      confirmations := [],
      wallets := [⟨1000, []⟩, ⟨500, []⟩] } rfl
  exact ⟨st2, h1, h2⟩

/-- Claim C7 (code bug): `create_user_wallet` calls
`Wallet.objects.create(balance=1000.00, content_type=..., object_id=...)`
— but the current `Wallet` model has no `content_type` or `object_id`
field (only the migration-era generic-key version did; the model now
links by a `user` one-to-one field, which the signal does not pass), so
Django rejects the kwargs and no wallet owned by the new user is
created. -/
theorem create_user_wallet_kwargs_rejected :
    djangoCreateAccepts walletModelFields create_user_wallet_kwargs
      = false ∧
    walletModelFields.contains "content_type" = false ∧
    walletModelFields.contains "object_id" = false ∧
    create_user_wallet_kwargs.contains "user" = false := by
  refine ⟨?_, ?_, ?_, ?_⟩ <;> rfl

/-- Helper: a successful purchase charged exactly the cost computed from
the `voucher_cost` setting. -/
theorem purchaseVoucherBody_ok_cost (st : PurchaseState) (user vid : Nat)
    (setting : VoucherCostSetting) (txnId : String) (ins : Bool)
    (c b : ℚ) (s : PurchaseState)
    (h : purchaseVoucherBody st user vid setting txnId ins = (.ok c b, s)) :
    computeVoucherCost setting = .ok c := by
  unfold purchaseVoucherBody at h
  split at h
  · simp at h
  next v hfind =>
    split at h
    · simp at h
    split at h
    · simp at h
    split at h
    · simp at h
    next w hw =>
      split at h
      · simp at h
      next cost hcost =>
        split at h
        · simp at h
        split at h
        · simp at h
        next w2 hded =>
          split at h
          · simp at h
          · simp only [Prod.mk.injEq, PurchaseOutcome.ok.injEq] at h
            rw [hcost, h.1.1]

/-- Test fixture: an active, uncapped voucher. -/
def sampleVoucher : Voucher :=
  { id := 1, is_active := true, count := none, redemption_count := 0,
    purchase_count := 0, title := "Coffee" }

/-- Test fixture: one voucher, a wallet at 1000 points, no purchase
records. -/
def samplePurchaseState : PurchaseState :=
  { vouchers := [sampleVoucher], wallet := some ⟨1000, []⟩,
    redemptions := [] }

/-- Claim C3 (confirmed): every failing `purchase_voucher` call leaves
the wallet, its history, the voucher rows and the purchase records
exactly as they were — the whole flow runs in one `transaction.atomic`
block and every failure raises out of it.  In particular, when the
purchase-record insert is forced to fail after the debit step, the
un-rolled-back intermediate state did carry the debited wallet, yet the
call returns the original state. -/
theorem purchase_voucher_failure_atomicity (st : PurchaseState)
    (user vid : Nat) (setting : VoucherCostSetting) (txnId : String)
    (insertFails : Bool) :
    (∀ (m : String) (st2 : PurchaseState),
      purchase_voucher st user vid setting txnId insertFails
        = (.err m, st2) → st2 = st) ∧
    (∀ (v : Voucher) (w : Wallet) (cost : ℚ),
      st.vouchers.find? (fun u => u.id == vid && u.is_active) = some v →
      st.redemptions.any
        (fun r => r.user == user && r.voucher == v.id) = false →
      v.outOfStock = false →
      st.wallet = some w →
      computeVoucherCost setting = .ok cost →
      cost ≤ w.balance →
      insertFails = true →
      (purchaseVoucherBody st user vid setting txnId insertFails).1
          = .err "Failed to create purchase record" ∧
      (∃ w2, (purchaseVoucherBody st user vid setting txnId
          insertFails).2.wallet = some w2 ∧
        w2.balance = w.balance - cost) ∧
      purchase_voucher st user vid setting txnId insertFails
          = (.err "Failed to create purchase record", st)) := by
  constructor
  · intro m st2 h
    unfold purchase_voucher at h
    rcases hb : purchaseVoucherBody st user vid setting txnId insertFails
      with ⟨o, s⟩
    rw [hb] at h
    cases o with
    | ok c b => simp at h
    | err m2 => simp only [Prod.mk.injEq] at h; exact h.2.symm
  · intro v w cost hfind hred hstock hw hcost hle hfail
    have hbody : purchaseVoucherBody st user vid setting txnId insertFails
        = (.err "Failed to create purchase record",
           { st with
               wallet := some
                 { balance := w.balance - cost,
                   histories := w.histories ++
                     [{ amount := -cost, transaction_type := "debit",
                        reference_note :=
                          some ("Voucher Purchase: " ++ v.title),
                        reference_id := some (toString v.id) }] },
               vouchers := st.vouchers.map (fun u =>
                 if u.id == v.id then
                   { u with purchase_count := u.purchase_count + 1 }
                 else u) }) := by
      simp [purchaseVoucherBody, hfind, hred, hstock, hw, hcost, hfail,
        Wallet.deduct, not_lt.mpr hle]
    refine ⟨by rw [hbody], ⟨_, by rw [hbody], rfl⟩, ?_⟩
    unfold purchase_voucher
    rw [hbody]

/-- Witness for C3: with the fixture state, a forced record-insert
failure returns the purchase-record error and the untouched original
state. -/
theorem purchase_voucher_failure_atomicity_witness :
    purchase_voucher samplePurchaseState 7 1 .missing "WT-1-20250101" true
      = (.err "Failed to create purchase record", samplePurchaseState) := by
  have h := (purchase_voucher_failure_atomicity samplePurchaseState 7 1
    .missing "WT-1-20250101" true).2 sampleVoucher ⟨1000, []⟩ 10
    rfl rfl rfl rfl rfl (by norm_num) rfl
  exact h.2.2

/-- Counterexample to C8 as stated: with an available voucher and an
amply funded wallet, a `voucher_cost` setting that parses to a
non-positive number (here -5, and likewise 0) makes the purchase FAIL
with "Invalid voucher cost" — the `ValidationError` raised for
`cost <= 0` is not in the `except (InvalidOperation, ValueError,
TypeError)` fallback clause — instead of falling back to the default
cost of 10. -/
theorem purchase_fails_on_nonpositive_cost_setting :
    purchase_voucher samplePurchaseState 7 1 (.parsed (-5))
        "WT-1-20250101" false
      = (.err "Invalid voucher cost", samplePurchaseState) ∧
    purchase_voucher samplePurchaseState 7 1 (.parsed 0)
        "WT-1-20250101" false
      = (.err "Invalid voucher cost", samplePurchaseState) := by
  constructor <;> rfl

/-- Claim C8 (amended): the purchase charges the configured cost when
the setting parses to a positive number, and falls back to the default
10 when the setting is missing or does not parse as a number; but a
setting that parses to zero or a negative number does NOT fall back —
it aborts the purchase with "Invalid voucher cost".  On every successful
purchase the charged cost is exactly the one computed from the
setting. -/
theorem voucher_cost_fallback :
    computeVoucherCost .missing = .ok 10 ∧
    computeVoucherCost .unparseable = .ok 10 ∧
    (∀ q : ℚ, 0 < q → computeVoucherCost (.parsed q) = .ok q) ∧
    (∀ q : ℚ, q ≤ 0 →
      computeVoucherCost (.parsed q) = .error "Invalid voucher cost") ∧
    (∀ (st : PurchaseState) (user vid : Nat) (setting : VoucherCostSetting)
        (txnId : String) (ins : Bool) (c b : ℚ) (st2 : PurchaseState),
      purchase_voucher st user vid setting txnId ins = (.ok c b, st2) →
      computeVoucherCost setting = .ok c) := by
  refine ⟨rfl, rfl, ?_, ?_, ?_⟩
  · intro q hq
    simp [computeVoucherCost, not_le.mpr hq]
  · intro q hq
    simp [computeVoucherCost, hq]
  · intro st user vid setting txnId ins c b st2 h
    unfold purchase_voucher at h
    rcases hb : purchaseVoucherBody st user vid setting txnId ins
      with ⟨o, s⟩
    rw [hb] at h
    cases o with
    | err m => simp at h
    | ok c2 b2 =>
        simp only [Prod.mk.injEq, PurchaseOutcome.ok.injEq] at h
        obtain ⟨⟨rfl, -⟩, -⟩ := h
        exact purchaseVoucherBody_ok_cost st user vid setting txnId ins
          c2 b2 s hb

/-- Witness for C8 (amended): a setting parsing to 25 yields cost 25. -/
theorem voucher_cost_fallback_witness :
    computeVoucherCost (.parsed 25) = .ok 25 :=
  voucher_cost_fallback.2.2.1 25 (by norm_num)
